import Mathlib

/-!
Shallow embedding of the core of `mod_audio_stream_fork/mod_audio_stream.c`
(a FreeSWITCH module streaming call audio to a websocket and injecting
playback audio back into the call), together with theorems checking the
natural-language specification against it.

Embedded parts:
* the playback ring-buffer drain performed in the `SWITCH_ABC_TYPE_READ`
  branch of `capture_callback` (warmup gating, one-quantum drain, frame
  injection, empty-buffer deactivation);
* the `SWITCH_ABC_TYPE_CLOSE` branch of `capture_callback` (cleanup reason
  selection);
* the command dispatcher `stream_function` (token dispatch, validation
  order, result reporting) together with the argument parsing of the
  `start` command (mix type, sample rate, encoding alias / legacy
  metadata) and the guard structure of `start_capture`.

External collaborators (session lookup, websocket glue, UTF-8 validator,
URI validator, codecs) are modelled as parameters of an `Env` record:
the dispatcher's control flow only observes their boolean verdicts.
Byte buffers are lists of naturals; machine integers that can go
negative (`atoi` results) are `Int`.  The C remainder test
`sampling % 8000 != 0` agrees with `Int.emod` on the only point used,
namely whether the remainder is zero (both are zero exactly when
8000 divides the value), so `%` on `Int` is used directly.
-/

set_option maxRecDepth 4000

namespace ModAudioStream

/-! ## Constants from `mod_audio_stream.h` -/

def AUDIO_FORMAT_L16 : Nat := 0

def AUDIO_FORMAT_PCMU : Nat := 1

def AUDIO_FORMAT_PCMA : Nat := 2

/-! ## Playback ring buffer (READ branch of `capture_callback`, lines 50-91)

`l16_frame_size = 320` bytes (160 L16 samples, 20ms at 8 kHz) and the
warmup threshold is five quanta (100 ms), as in the local constants of
the READ branch. -/

def l16_frame_size : Nat := 320

def warmup_threshold : Nat := l16_frame_size * 5

/-- State of `tech_pvt`'s playback buffer: the buffered bytes (occupancy is
the length) and the `playback_active` bitfield. -/
structure PlaybackState where
  data : List Nat
  active : Bool
deriving DecidableEq, Repr

/-- The `switch_frame_t write_frame` built in the READ branch: payload
bytes, `datalen`, `samples`, `rate` fields as set at lines 74-79.  The
payload is the raw L16 sample bytes read from the buffer; the platform
transcodes to the wire codec. -/
structure WriteFrame where
  data : List Nat
  datalen : Nat
  samples : Nat
  rate : Nat
deriving DecidableEq, Repr

/-- One execution of the playback-drain block of the READ branch
(lines 51-90): read `available = switch_buffer_inuse`, arm `playback_active`
when not active and `available >= warmup_threshold`, then either read one
320-byte quantum (and, when the session read codec is present, build and
write the fixed L16/8kHz frame), or, when active and empty, clear
`playback_active`.  Returns the new buffer state and the injected frame,
if any.  `codecPresent` models `switch_core_session_get_read_codec`
returning non-NULL. -/
def drainTick (codecPresent : Bool) (pb : PlaybackState) :
    PlaybackState × Option WriteFrame :=
  let available := pb.data.length
  let pb1 : PlaybackState :=
    if pb.active = false ∧ warmup_threshold ≤ available then
      { pb with active := true }
    else pb
  if pb1.active = true ∧ l16_frame_size ≤ available then
    let l16_data := pb1.data.take l16_frame_size
    let pb2 : PlaybackState := { pb1 with data := pb1.data.drop l16_frame_size }
    if codecPresent then
      (pb2, some { data := l16_data, datalen := l16_frame_size,
                   samples := 160, rate := 8000 })
    else
      (pb2, none)
  else if pb1.active = true ∧ available = 0 then
    ({ pb1 with active := false }, none)
  else
    (pb1, none)

/-- Modelled from the spec: the producer side `push(bytes)` of the Playback
Ring Buffer lives in `audio_streamer_glue` which is not under `src/`.
Spec section 4.2: appends bytes; if capacity is exceeded, drops the oldest
bytes first (never rejects, never blocks); `active` arming happens only at
drain time, not at push time.  The capacity is not fixed numerically by the
spec, so it is a parameter `cap`. -/
def push (cap : Nat) (pb : PlaybackState) (bytes : List Nat) : PlaybackState :=
  let d := pb.data ++ bytes
  { pb with data := if d.length ≤ cap then d else d.drop (d.length - cap) }

/-- A sequence of pushes with no intervening drains. -/
def pushAll (cap : Nat) (pb : PlaybackState) (chunks : List (List Nat)) :
    PlaybackState :=
  chunks.foldl (push cap) pb

/-- Total number of bytes in a list of push chunks. -/
def totalLen (chunks : List (List Nat)) : Nat :=
  (chunks.map List.length).sum

/-! ## C string helpers used by `stream_function`

`strcasecmp` lowercases ASCII letters only; `atoi` skips leading
whitespace, takes an optional sign, and consumes decimal digits until the
first non-digit (0 when there are none). -/

/-- ASCII `tolower` on a single character. -/
def asciiLower (c : Char) : Char :=
  if 'A' ≤ c ∧ c ≤ 'Z' then Char.ofNat (c.toNat + 32) else c

/-- Lowercase an ASCII string character-wise. -/
def lowerStr (s : String) : String :=
  String.mk (s.data.map asciiLower)

/-- Model of `0 == strcasecmp a b`. -/
def caseEq (a b : String) : Bool :=
  lowerStr a == lowerStr b

/-- C `isspace` characters skipped by `atoi`. -/
def isCSpace (c : Char) : Bool :=
  c = ' ' ∨ c = '\t' ∨ c = '\n' ∨ c = '\x0b' ∨ c = '\x0c' ∨ c = '\r'

/-- Drop the leading whitespace of a character list. -/
def skipSpaces : List Char → List Char
  | [] => []
  | c :: cs => if isCSpace c then skipSpaces cs else c :: cs

/-- Accumulate decimal digits until the first non-digit. -/
def atoiDigits : List Char → Nat → Nat
  | [], acc => acc
  | c :: cs, acc =>
      if c.isDigit then atoiDigits cs (acc * 10 + (c.toNat - 48)) else acc

/-- Model of C `atoi` (overflow-free: the result is an unbounded `Int`). -/
def atoi (s : String) : Int :=
  match skipSpaces s.data with
  | '-' :: cs => - (atoiDigits cs 0 : Int)
  | '+' :: cs => (atoiDigits cs 0 : Int)
  | cs => (atoiDigits cs 0 : Int)

/-! ## Command dispatcher (`stream_function`, lines 200-330)

The dispatcher receives the whitespace-separated argument vector (at most
seven tokens, as in the C `argv[7]`).  External collaborators are modelled
by `Env`: each field is the verdict the C code observes from the
corresponding call. -/

/-- Verdicts of the external collaborators consulted by `stream_function`
and `start_capture`.  `utf8Valid` models `is_valid_utf8` (defined in
`audio_streamer_glue`, outside `src/`): the dispatcher only branches on
its boolean verdict. -/
structure Env where
  sessionFound : Bool
  uriValid : Bool
  utf8Valid : String → Bool
  bugAttached : Bool
  preAnswerOk : Bool
  sessionInitOk : Bool
  bugAddOk : Bool
  stopOk : Bool
  pauseOk : Bool
  resumeOk : Bool
  sendOk : Bool

/-- Observable side-effecting calls issued by the dispatcher.
`startCapture` records the resolved sampling rate, audio format and
metadata passed to `start_capture`; `doStop` leads to
`stream_session_cleanup(session, text, 0)`; `sendTextAct` forwards text to
the sink. -/
inductive Action where
  | startCapture (sampling : Int) (audioFormat : Nat) (metadata : Option String)
      (writeStream : Bool) (stereo : Bool)
  | doStop (finalText : Option String)
  | pauseResume (pause : Bool)
  | sendTextAct (text : String)
deriving DecidableEq, Repr

/-- Result of one dispatcher invocation: the string written to the API
stream (`none` when a `goto done` path writes nothing), the collaborator
calls issued, and the final value of the C local `status`. -/
structure DispatchResult where
  output : Option String
  actions : List Action
  status : Bool
deriving DecidableEq, Repr

/-- The `-USAGE` line written for malformed invocations (line 215, with
`STREAM_API_SYNTAX` substituted). -/
def usageMarker : String :=
  "-USAGE: <uuid> [start | stop | send_text | pause | resume | graceful-shutdown ] [wss-url | path] [mono | mixed | stereo] [8000 | 16000] [l16 | pcmu | pcma] [metadata]\n"

/-- The generic success marker (line 322). -/
def okMarker : String := "+OK Success\n"

/-- The generic failure marker (line 324). -/
def errMarker : String := "-ERR Operation Failed\n"

/-- Reaching the common exit (lines 321-325): write `+OK` on success,
`-ERR` otherwise. -/
def finishResult (acts : List Action) (st : Bool) : DispatchResult :=
  { output := some (if st then okMarker else errMarker), actions := acts,
    status := st }

/-- An early `goto done` after the dispatch began: nothing is written and
`status` is still `SWITCH_STATUS_FALSE`. -/
def earlyDone : DispatchResult :=
  { output := none, actions := [], status := false }

/-- Encoding-alias and metadata resolution for `start` (lines 255-270):
`argv[5]` is matched case-insensitively against the PCMU, PCMA and L16
alias sets; a recognized alias selects the format and takes metadata from
`argv[6]` when present; any other token leaves the format at L16 and is
itself the metadata (backward compatibility). -/
def parse_format_metadata (argv : List String) : Nat × Option String :=
  if 5 < argv.length then
    if caseEq (argv.getD 5 "") "pcmu" ∨ caseEq (argv.getD 5 "") "ulaw" ∨
        caseEq (argv.getD 5 "") "mulaw" then
      (AUDIO_FORMAT_PCMU, argv.get? 6)
    else if caseEq (argv.getD 5 "") "pcma" ∨ caseEq (argv.getD 5 "") "alaw" then
      (AUDIO_FORMAT_PCMA, argv.get? 6)
    else if caseEq (argv.getD 5 "") "l16" ∨ caseEq (argv.getD 5 "") "linear" ∨
        caseEq (argv.getD 5 "") "pcm" then
      (AUDIO_FORMAT_L16, argv.get? 6)
    else
      (AUDIO_FORMAT_L16, some (argv.getD 5 ""))
  else
    (AUDIO_FORMAT_L16, none)

/-- Mix-type resolution for `start` (lines 278-288, case-sensitive
`strcmp`): `mixed` adds the write stream, `stereo` adds the write stream
and stereo capture, `mono` adds nothing, anything else is invalid. -/
inductive MixResult where
  | ok (writeStream : Bool) (stereo : Bool)
  | invalid
deriving DecidableEq, Repr

def parse_mix (t : String) : MixResult :=
  if t == "mixed" then .ok true false
  else if t == "stereo" then .ok true true
  else if t == "mono" then .ok false false
  else .invalid

/-- Sample-rate resolution for `start` (lines 249, 289-297): default 8000;
`16k` and `8k` map to 16000 and 8000 (case-sensitive `strcmp`); any other
token goes through `atoi`. -/
def parse_rate (argv : List String) : Int :=
  if 4 < argv.length then
    if argv.getD 4 "" == "16k" then 16000
    else if argv.getD 4 "" == "8k" then 8000
    else atoi (argv.getD 4 "")
  else 8000

/-- Guard structure of `start_capture` (lines 106-157): fails when a bug is
already attached, when the channel has not reached pre-answer, or when
`stream_session_init` or `switch_core_media_bug_add` fails. -/
def start_capture_status (env : Env) : Bool :=
  if env.bugAttached then false
  else if env.preAnswerOk = false then false
  else if env.sessionInitOk = false then false
  else env.bugAddOk

/-- Check chain at the end of the `start` branch (lines 298-309): reject
an invalid websocket URI, then a sample rate that is not a multiple of
8000, then a non-linear encoding at a rate other than 8000; only when all
pass is `start_capture` called. -/
def start_checks (env : Env) (argv : List String)
    (writeStream stereo : Bool) : DispatchResult :=
  if env.uriValid = false then
    finishResult [] false
  else if parse_rate argv % 8000 ≠ 0 then
    finishResult [] false
  else if (parse_format_metadata argv).1 ≠ AUDIO_FORMAT_L16 ∧
      parse_rate argv ≠ 8000 then
    finishResult [] false
  else
    finishResult
      [Action.startCapture (parse_rate argv) (parse_format_metadata argv).1
        (parse_format_metadata argv).2 writeStream stereo]
      (start_capture_status env)

/-- Body of the `start` branch (lines 246-309), in source order: resolve
format and metadata, reject invalid-UTF-8 metadata (`goto done`), resolve
the mix type (`goto done` when invalid), then run the final checks of
`start_checks`. -/
def handle_start (env : Env) (argv : List String) : DispatchResult :=
  if (match (parse_format_metadata argv).2 with
      | some m => !env.utf8Valid m
      | none => false) then
    earlyDone
  else
    match parse_mix (argv.getD 3 "") with
    | .invalid => earlyDone
    | .ok writeStream stereo => start_checks env argv writeStream stereo

/-- The dispatcher `stream_function` (lines 200-330) on an already
tokenized command line.  The usage check at line 213 compares `argv[1]`
against `start` case-sensitively; the per-command dispatch below uses
`strcasecmp`. -/
def stream_function (env : Env) (argv : List String) : DispatchResult :=
  if argv.length < 2 ∨ (argv.getD 1 "" == "start" ∧ argv.length < 4) then
    { output := some usageMarker, actions := [], status := false }
  else if env.sessionFound = false then
    finishResult [] false
  else if caseEq (argv.getD 1 "") "stop" then
    if 2 < argv.length ∧ env.utf8Valid (argv.getD 2 "") = false then
      earlyDone
    else
      finishResult
        [Action.doStop (if 2 < argv.length then some (argv.getD 2 "") else none)]
        env.stopOk
  else if caseEq (argv.getD 1 "") "pause" then
    finishResult [Action.pauseResume true] env.pauseOk
  else if caseEq (argv.getD 1 "") "resume" then
    finishResult [Action.pauseResume false] env.resumeOk
  else if caseEq (argv.getD 1 "") "send_text" then
    if argv.length < 3 then earlyDone
    else if env.utf8Valid (argv.getD 2 "") = false then earlyDone
    else
      finishResult
        (if env.bugAttached then [Action.sendTextAct (argv.getD 2 "")] else [])
        (env.bugAttached && env.sendOk)
  else if caseEq (argv.getD 1 "") "start" then
    handle_start env argv
  else
    finishResult [] false

/-! ## Frame-engine callback (`capture_callback`, lines 22-104) -/

/-- The `switch_abc_type_t` values the callback switches on. -/
inductive AbcType where
  | init
  | close
  | read
  | write
  | other
deriving DecidableEq, Repr

/-- The per-call `tech_pvt` fields the callback reads: the
`close_requested` flag and the playback buffer (paired with its mutex;
`none` models a NULL `playback_buffer`/`playback_mutex`). -/
structure TechPvt where
  close_requested : Bool
  playback : Option PlaybackState
deriving DecidableEq, Repr

/-- Side-effecting calls issued by one callback invocation:
`cleanup text reason` is `stream_session_cleanup(session, text,
channel_closing)`, `streamFrame` forwards the inbound frame to the sink
(`stream_frame(bug)`), `injectFrame` is
`switch_core_session_write_frame` with the constructed playback frame. -/
inductive CbAction where
  | cleanup (finalText : Option String) (channelClosing : Nat)
  | streamFrame
  | injectFrame (f : WriteFrame)
deriving DecidableEq, Repr

/-- Result of one callback invocation: the `switch_bool_t` return value
(`false` requests detachment), the updated `tech_pvt`, and the collaborator
calls issued, in order. -/
structure CbResult where
  ret : Bool
  tech : TechPvt
  actions : List CbAction
deriving DecidableEq, Repr

/-- One invocation of `capture_callback`.  `codecPresent` models the
session read codec being non-NULL; `streamFrameOk` models the return value
of the external `stream_frame`. -/
def capture_callback (codecPresent streamFrameOk : Bool) (tech : TechPvt)
    (ty : AbcType) : CbResult :=
  match ty with
  | .init => { ret := true, tech := tech, actions := [] }
  | .close =>
      { ret := true, tech := tech,
        actions := [.cleanup none (if tech.close_requested then 0 else 1)] }
  | .read =>
      if tech.close_requested then
        { ret := false, tech := tech, actions := [] }
      else
        match tech.playback with
        | some pb =>
            let r := drainTick codecPresent pb
            { ret := streamFrameOk,
              tech := { tech with playback := some r.1 },
              actions :=
                (match r.2 with
                 | some f => [CbAction.injectFrame f]
                 | none => []) ++ [CbAction.streamFrame] }
        | none =>
            { ret := streamFrameOk, tech := tech,
              actions := [CbAction.streamFrame] }
  | .write => { ret := true, tech := tech, actions := [] }
  | .other => { ret := true, tech := tech, actions := [] }

/-! ## Named environments and claim-side predicates -/

/-- An environment in which every external collaborator succeeds and every
string passes UTF-8 validation. -/
def envAllOk : Env :=
  { sessionFound := true, uriValid := true, utf8Valid := fun _ => true,
    bugAttached := false, preAnswerOk := true, sessionInitOk := true,
    bugAddOk := true, stopOk := true, pauseOk := true, resumeOk := true,
    sendOk := true }

/-- An environment whose UTF-8 validator rejects every string. -/
def envRejectUtf8 : Env :=
  { envAllOk with utf8Valid := fun _ => false }

/-- Membership of a token in one of the three case-insensitive encoding
alias sets recognized at lines 257-263. -/
def isEncodingAlias (t : String) : Bool :=
  caseEq t "pcmu" || caseEq t "ulaw" || caseEq t "mulaw" ||
  caseEq t "pcma" || caseEq t "alaw" ||
  caseEq t "l16" || caseEq t "linear" || caseEq t "pcm"

/-- Acceptance predicate for the sample rate as the specification claims
it (spec section 4.1 and section 8): the rate must be positive, a multiple
of 8000, and exactly 8000 for the non-linear encodings.  This follows the
claim wording, for comparison with the code; the code itself never checks
positivity. -/
def claimedRateAccept (fmt : Nat) (r : Int) : Prop :=
  0 < r ∧ r % 8000 = 0 ∧ (fmt ≠ AUDIO_FORMAT_L16 → r = 8000)

/-! ## Helper lemmas about the playback buffer -/

lemma totalLen_nil : totalLen [] = 0 := rfl

lemma totalLen_cons (c : List Nat) (cs : List (List Nat)) :
    totalLen (c :: cs) = c.length + totalLen cs := by
  simp [totalLen]

lemma totalLen_eq_join_length (chunks : List (List Nat)) :
    totalLen chunks = chunks.flatten.length := by
  induction chunks with
  | nil => rfl
  | cons c cs ih => simp [totalLen_cons, ih]

lemma push_active (cap : Nat) (pb : PlaybackState) (bytes : List Nat) :
    (push cap pb bytes).active = pb.active := by
  simp [push]

lemma push_of_fits (cap : Nat) (pb : PlaybackState) (bytes : List Nat)
    (h : pb.data.length + bytes.length ≤ cap) :
    push cap pb bytes = { pb with data := pb.data ++ bytes } := by
  have h2 : (pb.data ++ bytes).length ≤ cap := by
    simp [List.length_append]; omega
  simp only [push]
  rw [if_pos h2]

lemma pushAll_of_fits (cap : Nat) (chunks : List (List Nat)) :
    ∀ pb : PlaybackState, pb.data.length + totalLen chunks ≤ cap →
      pushAll cap pb chunks = { pb with data := pb.data ++ chunks.flatten } := by
  induction chunks with
  | nil =>
      intro pb h
      simp [pushAll]
  | cons c cs ih =>
      intro pb h
      rw [totalLen_cons] at h
      have h1 : pb.data.length + c.length ≤ cap := by omega
      have step : pushAll cap pb (c :: cs) = pushAll cap (push cap pb c) cs := rfl
      rw [step, push_of_fits cap pb c h1]
      rw [ih { pb with data := pb.data ++ c } (by simp [List.length_append]; omega)]
      simp [List.append_assoc]

lemma drainTick_inactive_low (c : Bool) (pb : PlaybackState)
    (h1 : pb.active = false) (h2 : pb.data.length < warmup_threshold) :
    drainTick c pb = (pb, none) := by
  have h2n : ¬ warmup_threshold ≤ pb.data.length := by omega
  simp [drainTick, h1, h2n]

lemma drainTick_inactive_high (c : Bool) (pb : PlaybackState)
    (h1 : pb.active = false) (h2 : warmup_threshold ≤ pb.data.length) :
    drainTick c pb =
      ({ data := pb.data.drop l16_frame_size, active := true },
       if c then
         some { data := pb.data.take l16_frame_size, datalen := l16_frame_size,
                samples := 160, rate := 8000 }
       else none) := by
  have h3 : l16_frame_size ≤ pb.data.length := by
    have : l16_frame_size ≤ warmup_threshold := by
      simp [l16_frame_size, warmup_threshold]
    omega
  cases c <;> simp [drainTick, h1, h2, h3]

lemma drainTick_active_read (c : Bool) (pb : PlaybackState)
    (h1 : pb.active = true) (h2 : l16_frame_size ≤ pb.data.length) :
    drainTick c pb =
      ({ data := pb.data.drop l16_frame_size, active := true },
       if c then
         some { data := pb.data.take l16_frame_size, datalen := l16_frame_size,
                samples := 160, rate := 8000 }
       else none) := by
  cases c <;> simp [drainTick, h1, h2]

lemma drainTick_active_mid (c : Bool) (pb : PlaybackState)
    (h1 : pb.active = true) (h2 : 0 < pb.data.length)
    (h3 : pb.data.length < l16_frame_size) :
    drainTick c pb = (pb, none) := by
  have h4 : ¬ l16_frame_size ≤ pb.data.length := by omega
  have h5 : pb.data.length ≠ 0 := by omega
  simp [drainTick, h1, h4, h5]

lemma drainTick_active_empty (c : Bool) (pb : PlaybackState)
    (h1 : pb.active = true) (h2 : pb.data.length = 0) :
    drainTick c pb = ({ pb with active := false }, none) := by
  simp [drainTick, h1, h2, l16_frame_size]

/-! ## Claim theorems: playback ring buffer -/

/-- C3: starting from an inactive playback buffer, after pushes totalling
`N` quanta (`N * 320` bytes, `N ≥ 5`) with no intervening drains that stay
within the buffer capacity, the next per-tick drain sets the active flag
and removes and injects exactly one 320-byte quantum (the injected frame
has `datalen = 320`).  The producer `push` is modelled from the spec
(section 4.2); `codecPresent = true` is the normal injection path. -/
theorem playback_warmup_completes (cap N : Nat) (d : List Nat)
    (chunks : List (List Nat)) (hN : 5 ≤ N) (hlen : totalLen chunks = 320 * N)
    (hcap : d.length + totalLen chunks ≤ cap) :
    (drainTick true (pushAll cap ⟨d, false⟩ chunks)).1.active = true ∧
    (drainTick true (pushAll cap ⟨d, false⟩ chunks)).1.data.length
      = d.length + 320 * N - 320 ∧
    (drainTick true (pushAll cap ⟨d, false⟩ chunks)).2
      = some { data := (d ++ chunks.flatten).take 320, datalen := 320,
               samples := 160, rate := 8000 } := by
  have hpush : pushAll cap ⟨d, false⟩ chunks
      = { data := d ++ chunks.flatten, active := false } :=
    pushAll_of_fits cap chunks ⟨d, false⟩ hcap
  have hjoin : chunks.flatten.length = 320 * N := by
    rw [← totalLen_eq_join_length, hlen]
  have hlen2 : (d ++ chunks.flatten).length = d.length + 320 * N := by
    simp [List.length_append, hjoin]
  have hwarm : warmup_threshold ≤ (d ++ chunks.flatten).length := by
    rw [hlen2]
    simp [warmup_threshold, l16_frame_size]
    omega
  rw [hpush, drainTick_inactive_high true ⟨d ++ chunks.flatten, false⟩ rfl hwarm]
  refine ⟨rfl, ?_, by simp [l16_frame_size]⟩
  simp [List.length_drop, hlen2, l16_frame_size]

/-- Witness for C3: a single push of 1600 bytes into an empty inactive
buffer, then one drain. -/
theorem playback_warmup_completes_witness :
    (drainTick true (pushAll 4000 ⟨[], false⟩ [List.replicate 1600 0])).1.active
      = true ∧
    (drainTick true (pushAll 4000 ⟨[], false⟩
        [List.replicate 1600 0])).1.data.length
      = ([] : List Nat).length + 320 * 5 - 320 ∧
    (drainTick true (pushAll 4000 ⟨[], false⟩ [List.replicate 1600 0])).2
      = some { data := (([] : List Nat) ++ [List.replicate 1600 0].flatten).take 320,
               datalen := 320, samples := 160, rate := 8000 } :=
  playback_warmup_completes 4000 5 [] [List.replicate 1600 0]
    (by norm_num) (by norm_num [totalLen]) (by norm_num [totalLen])

/-- C4: the playback `active` flag arms (false to true) at a drain only
when occupancy is at least the warmup threshold; it disarms (true to
false) at a drain only when occupancy is zero; `push` never changes it;
and, starting from the empty inactive state left by draining to zero,
pushes totalling fewer than five quanta followed by a drain return no
quantum and leave the buffer unchanged (so further drains also return
nothing until occupancy reaches the threshold). -/
theorem playback_active_hysteresis :
    (∀ (c : Bool) (pb : PlaybackState), pb.active = false →
        (drainTick c pb).1.active = true → warmup_threshold ≤ pb.data.length) ∧
    (∀ (c : Bool) (pb : PlaybackState), pb.active = true →
        (drainTick c pb).1.active = false → pb.data.length = 0) ∧
    (∀ (cap : Nat) (pb : PlaybackState) (bytes : List Nat),
        (push cap pb bytes).active = pb.active) ∧
    (∀ (c : Bool) (cap : Nat) (chunks : List (List Nat)),
        totalLen chunks < warmup_threshold → totalLen chunks ≤ cap →
        drainTick c (pushAll cap ⟨[], false⟩ chunks)
          = (pushAll cap ⟨[], false⟩ chunks, none)) := by
  refine ⟨?_, ?_, ?_, ?_⟩
  · intro c pb h1 h2
    by_contra hlt
    rw [drainTick_inactive_low c pb h1 (by omega)] at h2
    rw [h1] at h2
    exact absurd h2 (by simp)
  · intro c pb h1 h2
    by_contra hne
    by_cases hge : l16_frame_size ≤ pb.data.length
    · rw [drainTick_active_read c pb h1 hge] at h2
      simp at h2
    · rw [drainTick_active_mid c pb h1 (by omega) (by omega)] at h2
      rw [h1] at h2
      exact absurd h2 (by simp)
  · intro cap pb bytes
    exact push_active cap pb bytes
  · intro c cap chunks hlt hle
    have hpush : pushAll cap ⟨[], false⟩ chunks
        = { data := ([] : List Nat) ++ chunks.flatten, active := false } :=
      pushAll_of_fits cap chunks ⟨[], false⟩ (by simpa using hle)
    have hlen : ((⟨([] : List Nat) ++ chunks.flatten, false⟩ :
        PlaybackState)).data.length < warmup_threshold := by
      simpa [← totalLen_eq_join_length] using hlt
    rw [hpush]
    exact drainTick_inactive_low c _ rfl hlen

/-- Witness for C4: a refill of two quanta (640 bytes, below the
five-quantum threshold) into the empty inactive state, followed by a
drain, returns no quantum and leaves the buffer unchanged. -/
theorem playback_active_hysteresis_witness :
    drainTick true (pushAll 4000 ⟨[], false⟩ [List.replicate 640 0])
      = (pushAll 4000 ⟨[], false⟩ [List.replicate 640 0], none) :=
  playback_active_hysteresis.2.2.2 true 4000 [List.replicate 640 0]
    (by norm_num [totalLen, warmup_threshold, l16_frame_size])
    (by norm_num [totalLen])

/-- C5: one drain tick either removes exactly one full 320-byte quantum
(and then, on the normal path with the read codec present, injects a frame
with `datalen = 320`, `samples = 160`, `rate = 8000` carrying the removed
L16 bytes) or removes nothing and injects nothing; a partial quantum is
never removed. -/
theorem drainTick_full_quantum (c : Bool) (pb : PlaybackState) :
    ((drainTick c pb).1.data.length = pb.data.length - l16_frame_size ∧
      l16_frame_size ≤ pb.data.length ∧
      (c = true → (drainTick c pb).2
        = some { data := pb.data.take l16_frame_size, datalen := l16_frame_size,
                 samples := 160, rate := 8000 })) ∨
    ((drainTick c pb).1.data = pb.data ∧ (drainTick c pb).2 = none) := by
  cases h1 : pb.active
  · by_cases h2 : warmup_threshold ≤ pb.data.length
    · left
      have h3 : l16_frame_size ≤ pb.data.length := by
        have : l16_frame_size ≤ warmup_threshold := by
          simp [l16_frame_size, warmup_threshold]
        omega
      rw [drainTick_inactive_high c pb h1 h2]
      refine ⟨by simp, h3, ?_⟩
      intro hc
      simp [hc]
    · right
      rw [drainTick_inactive_low c pb h1 (by omega)]
      exact ⟨rfl, rfl⟩
  · by_cases h2 : l16_frame_size ≤ pb.data.length
    · left
      rw [drainTick_active_read c pb h1 h2]
      refine ⟨by simp, h2, ?_⟩
      intro hc
      simp [hc]
    · by_cases h3 : pb.data.length = 0
      · right
        rw [drainTick_active_empty c pb h1 h3]
        exact ⟨rfl, rfl⟩
      · right
        rw [drainTick_active_mid c pb h1 (by omega) (by omega)]
        exact ⟨rfl, rfl⟩

/-- Witness for C5: the theorem instantiated at an active buffer holding
exactly one quantum, with the read codec present. -/
theorem drainTick_full_quantum_witness :
    (((drainTick true ⟨List.replicate 320 0, true⟩).1.data.length
        = (List.replicate 320 (0 : Nat)).length - l16_frame_size ∧
      l16_frame_size ≤ (List.replicate 320 (0 : Nat)).length ∧
      (true = true → (drainTick true ⟨List.replicate 320 0, true⟩).2
        = some { data := (List.replicate 320 (0 : Nat)).take l16_frame_size,
                 datalen := l16_frame_size, samples := 160, rate := 8000 })) ∨
    ((drainTick true ⟨List.replicate 320 0, true⟩).1.data
        = List.replicate 320 (0 : Nat) ∧
      (drainTick true ⟨List.replicate 320 0, true⟩).2 = none)) :=
  drainTick_full_quantum true ⟨List.replicate 320 0, true⟩

/-- C10: on a tick where the buffer is active and holds strictly between 0
and 320 bytes, nothing is injected, the flag stays set, and the occupancy
is unchanged (the whole state is unchanged): deactivation happens only at
exactly zero occupancy. -/
theorem drain_partial_residue (c : Bool) (pb : PlaybackState)
    (h1 : pb.active = true) (h2 : 0 < pb.data.length)
    (h3 : pb.data.length < l16_frame_size) :
    drainTick c pb = (pb, none) :=
  drainTick_active_mid c pb h1 h2 h3

/-- Witness for C10: an active buffer holding 100 bytes is left untouched
by a drain tick. -/
theorem drain_partial_residue_witness :
    drainTick true ⟨List.replicate 100 0, true⟩
      = (⟨List.replicate 100 0, true⟩, none) :=
  drain_partial_residue true ⟨List.replicate 100 0, true⟩ rfl
    (by simp) (by simp [l16_frame_size])

/-! ## Claim theorems: frame-engine callback -/

/-- C6: on every frame-read invocation with `close_requested` set, the
callback returns `SWITCH_FALSE` (requesting detachment from the tap
framework) and performs no processing: no inbound frame is forwarded to
the sink, no quantum is drained or injected, and the per-call state is
unchanged.  The result does not depend on how many invocations happened
since the flag was set, so this holds on the first such invocation and on
every later one. -/
theorem close_requested_detaches (codecPresent streamFrameOk : Bool)
    (tech : TechPvt) (h : tech.close_requested = true) :
    capture_callback codecPresent streamFrameOk tech .read
      = { ret := false, tech := tech, actions := [] } := by
  simp [capture_callback, h]

/-- Witness for C6: a session with the flag set and a warmed-up buffer is
still left untouched, with detachment requested. -/
theorem close_requested_detaches_witness :
    capture_callback true true
        ⟨true, some ⟨List.replicate 1600 0, true⟩⟩ .read
      = { ret := false,
          tech := ⟨true, some ⟨List.replicate 1600 0, true⟩⟩, actions := [] } :=
  close_requested_detaches true true
    ⟨true, some ⟨List.replicate 1600 0, true⟩⟩ rfl

/-- C7: the tap-close event invokes cleanup exactly once from that path,
and the `channel_closing` reason passed to cleanup is the tap-initiated
value (1) exactly when `close_requested` is not set, so command-initiated
and tap-initiated closure report different reasons. -/
theorem tap_close_reason (codecPresent streamFrameOk : Bool) (tech : TechPvt) :
    (capture_callback codecPresent streamFrameOk tech .close).actions
      = [CbAction.cleanup none (if tech.close_requested then 0 else 1)] ∧
    ((if tech.close_requested then (0 : Nat) else 1) = 1
      ↔ tech.close_requested = false) := by
  constructor
  · simp [capture_callback]
  · cases h : tech.close_requested <;> simp

/-- Witness for C7: with `close_requested` clear the close path issues one
cleanup with the tap-initiated reason. -/
theorem tap_close_reason_witness :
    (capture_callback true true ⟨false, none⟩ .close).actions
      = [CbAction.cleanup none
          (if (⟨false, none⟩ : TechPvt).close_requested then 0 else 1)] ∧
    ((if (⟨false, none⟩ : TechPvt).close_requested then (0 : Nat) else 1) = 1
      ↔ (⟨false, none⟩ : TechPvt).close_requested = false) :=
  tap_close_reason true true ⟨false, none⟩

/-! ## Helper lemmas about the dispatcher -/

lemma caseEq_start_commands :
    caseEq "start" "stop" = false ∧ caseEq "start" "pause" = false ∧
    caseEq "start" "resume" = false ∧ caseEq "start" "send_text" = false ∧
    caseEq "start" "start" = true := by decide

lemma caseEq_stop_self : caseEq "stop" "stop" = true := by decide

lemma stream_function_start (env : Env) (hs : env.sessionFound = true)
    (u uri a3 : String) (rest : List String) :
    stream_function env (u :: "start" :: uri :: a3 :: rest)
      = handle_start env (u :: "start" :: uri :: a3 :: rest) := by
  obtain ⟨e1, e2, e3, e4, e5⟩ := caseEq_start_commands
  have hno : ¬ ((u :: "start" :: uri :: a3 :: rest).length < 2 ∨
      ((u :: "start" :: uri :: a3 :: rest).getD 1 "" == "start") = true ∧
        (u :: "start" :: uri :: a3 :: rest).length < 4) := by
    simp [List.getD_cons_succ, List.getD_cons_zero]
  unfold stream_function
  rw [if_neg hno, if_neg (by simp [hs])]
  simp only [List.getD_cons_succ, List.getD_cons_zero]
  rw [if_neg (by simp [e1]), if_neg (by simp [e2]), if_neg (by simp [e3]),
      if_neg (by simp [e4]), if_pos (by simp [e5])]

lemma stream_function_stop (env : Env) (hs : env.sessionFound = true)
    (u : String) (rest : List String) :
    stream_function env (u :: "stop" :: rest)
      = (if 2 < (u :: "stop" :: rest).length ∧
            env.utf8Valid ((u :: "stop" :: rest).getD 2 "") = false
         then earlyDone
         else finishResult
           [Action.doStop (if 2 < (u :: "stop" :: rest).length
             then some ((u :: "stop" :: rest).getD 2 "") else none)]
           env.stopOk) := by
  have hno : ¬ ((u :: "stop" :: rest).length < 2 ∨
      ((u :: "stop" :: rest).getD 1 "" == "start") = true ∧
        (u :: "stop" :: rest).length < 4) := by
    simp [List.getD_cons_succ, List.getD_cons_zero]
  unfold stream_function
  rw [if_neg hno, if_neg (by simp [hs])]
  simp only [List.getD_cons_succ, List.getD_cons_zero]
  rw [if_pos (by simp [caseEq_stop_self])]

lemma stream_function_no_session (env : Env) (hs : env.sessionFound = false)
    (argv : List String)
    (h2 : ¬ (argv.length < 2 ∨
      (argv.getD 1 "" == "start") = true ∧ argv.length < 4)) :
    stream_function env argv = finishResult [] false := by
  unfold stream_function
  rw [if_neg h2, if_pos hs]

lemma handle_start_shape (env : Env) (argv : List String) :
    handle_start env argv = earlyDone ∨
      ∃ acts st, handle_start env argv = finishResult acts st := by
  unfold handle_start start_checks
  repeat' split
  all_goals first
    | exact Or.inl rfl
    | exact Or.inr ⟨_, _, rfl⟩

lemma stream_function_shape (env : Env) (argv : List String) :
    stream_function env argv
        = { output := some usageMarker, actions := [], status := false } ∨
      stream_function env argv = earlyDone ∨
      ∃ acts st, stream_function env argv = finishResult acts st := by
  unfold stream_function
  repeat' split
  all_goals first
    | exact Or.inl rfl
    | exact Or.inr (Or.inl rfl)
    | exact Or.inr (Or.inr ⟨_, _, rfl⟩)
    | skip
  all_goals
    rcases handle_start_shape env argv with h | ⟨acts, st, h⟩
    · exact Or.inr (Or.inl h)
    · exact Or.inr (Or.inr ⟨acts, st, h⟩)

/-! ## Claim theorems: command dispatcher -/

/-- C1 counterexample: the start command with rate token `0` (which `atoi`
parses to 0, not a positive rate) passes the code's `sampling % 8000 != 0`
check under the default linear encoding, so `start_capture` IS invoked
with sampling 0, although the claimed acceptance predicate rejects 0. -/
theorem start_rate_zero_accepted :
    (stream_function envAllOk ["u", "start", "wss://sink", "mono", "0"]).actions
      = [Action.startCapture 0 AUDIO_FORMAT_L16 none false false] ∧
    ¬ claimedRateAccept AUDIO_FORMAT_L16 0 := by
  constructor
  · rfl
  · intro h
    exact absurd h.1 (by decide)

/-- C1 (amended): for a start command with a valid mix token, an
all-passing environment, and any rate and trailing tokens, `start_capture`
is invoked if and only if the resolved rate `r` satisfies `r % 8000 = 0`
(positivity is NOT required) and, when the resolved encoding is non-linear,
additionally `r = 8000`; otherwise no `start_capture` call is made. -/
theorem start_rate_gate (u uri a3 : String) (rest : List String)
    (hmix : parse_mix a3 ≠ MixResult.invalid) :
    ((parse_rate (u :: "start" :: uri :: a3 :: rest) % 8000 = 0 ∧
        ((parse_format_metadata (u :: "start" :: uri :: a3 :: rest)).1
            ≠ AUDIO_FORMAT_L16 →
          parse_rate (u :: "start" :: uri :: a3 :: rest) = 8000)) →
      ∃ ws st,
        (stream_function envAllOk (u :: "start" :: uri :: a3 :: rest)).actions
          = [Action.startCapture (parse_rate (u :: "start" :: uri :: a3 :: rest))
              (parse_format_metadata (u :: "start" :: uri :: a3 :: rest)).1
              (parse_format_metadata (u :: "start" :: uri :: a3 :: rest)).2
              ws st]) ∧
    (¬ (parse_rate (u :: "start" :: uri :: a3 :: rest) % 8000 = 0 ∧
        ((parse_format_metadata (u :: "start" :: uri :: a3 :: rest)).1
            ≠ AUDIO_FORMAT_L16 →
          parse_rate (u :: "start" :: uri :: a3 :: rest) = 8000)) →
      (stream_function envAllOk (u :: "start" :: uri :: a3 :: rest)).actions
        = []) := by
  cases hpm : parse_mix a3 with
  | invalid => exact absurd hpm hmix
  | ok ws st =>
    have hred : stream_function envAllOk (u :: "start" :: uri :: a3 :: rest)
        = start_checks envAllOk (u :: "start" :: uri :: a3 :: rest) ws st := by
      rw [stream_function_start envAllOk rfl u uri a3 rest]
      unfold handle_start
      have hg2 : ¬ ((match (parse_format_metadata
          (u :: "start" :: uri :: a3 :: rest)).2 with
          | some m => !envAllOk.utf8Valid m
          | none => false) = true) := by
        cases (parse_format_metadata (u :: "start" :: uri :: a3 :: rest)).2 <;>
          simp [envAllOk]
      rw [if_neg hg2]
      simp only [List.getD_cons_succ, List.getD_cons_zero]
      rw [hpm]
    have huri : ¬ (envAllOk.uriValid = false) := by simp [envAllOk]
    constructor
    · intro hcond
      refine ⟨ws, st, ?_⟩
      rw [hred]
      unfold start_checks
      rw [if_neg huri, if_neg (not_not_intro hcond.1),
          if_neg (by intro hx; exact hx.2 (hcond.2 hx.1))]
      rfl
    · intro hncond
      rw [hred]
      unfold start_checks
      rw [if_neg huri]
      by_cases hr : parse_rate (u :: "start" :: uri :: a3 :: rest) % 8000 = 0
      · rw [if_neg (not_not_intro hr), if_pos ?hc]
        case hc =>
          by_contra hx
          push_neg at hx
          exact hncond ⟨hr, fun hne => by
            by_contra h8
            exact h8 (hx hne)⟩
        rfl
      · rw [if_pos hr]
        rfl

/-- Witness for C1 (amended): rate token 16000 with the default linear
encoding is accepted and `start_capture` is invoked. -/
theorem start_rate_gate_witness :
    ((parse_rate ["u", "start", "wss://sink", "mono", "16000"] % 8000 = 0 ∧
        ((parse_format_metadata ["u", "start", "wss://sink", "mono", "16000"]).1
            ≠ AUDIO_FORMAT_L16 →
          parse_rate ["u", "start", "wss://sink", "mono", "16000"] = 8000)) →
      ∃ ws st,
        (stream_function envAllOk
            ["u", "start", "wss://sink", "mono", "16000"]).actions
          = [Action.startCapture
              (parse_rate ["u", "start", "wss://sink", "mono", "16000"])
              (parse_format_metadata
                ["u", "start", "wss://sink", "mono", "16000"]).1
              (parse_format_metadata
                ["u", "start", "wss://sink", "mono", "16000"]).2
              ws st]) ∧
    (¬ (parse_rate ["u", "start", "wss://sink", "mono", "16000"] % 8000 = 0 ∧
        ((parse_format_metadata ["u", "start", "wss://sink", "mono", "16000"]).1
            ≠ AUDIO_FORMAT_L16 →
          parse_rate ["u", "start", "wss://sink", "mono", "16000"] = 8000)) →
      (stream_function envAllOk
          ["u", "start", "wss://sink", "mono", "16000"]).actions = []) :=
  start_rate_gate "u" "wss://sink" "mono" ["16000"] (by decide)

/-- C2 counterexample: a stop command whose final text fails UTF-8
validation takes the `goto done` path before the common exit, so the
command writes no result at all — neither the generic failure marker nor
anything else — although it failed. -/
theorem stop_invalid_utf8_writes_nothing :
    (stream_function envRejectUtf8 ["u", "stop", "x"]).output = none ∧
    (stream_function envRejectUtf8 ["u", "stop", "x"]).status = false := by
  rw [stream_function_stop envRejectUtf8 rfl "u" ["x"]]
  rw [if_pos ⟨by simp, rfl⟩]
  exact ⟨rfl, rfl⟩

/-- C2 (amended): every dispatcher invocation writes exactly one of: the
usage line (malformed invocation), nothing (an early validation rejection
via `goto done`), the generic success marker, or the generic failure
marker; the success marker is written exactly when the internal status is
success, and the failure marker only when it is failure.  (The original
claim that every failure writes the generic failure marker is refuted by
the early-rejection paths, which write nothing, and by the usage path.) -/
theorem result_marker_policy (env : Env) (argv : List String) :
    ((stream_function env argv).output = some usageMarker ∨
     (stream_function env argv).output = none ∨
     (stream_function env argv).output = some okMarker ∨
     (stream_function env argv).output = some errMarker) ∧
    ((stream_function env argv).output = some okMarker ↔
      (stream_function env argv).status = true) ∧
    ((stream_function env argv).output = some errMarker →
      (stream_function env argv).status = false) := by
  have hne1 : usageMarker ≠ okMarker := by decide
  have hne2 : okMarker ≠ errMarker := by decide
  rcases stream_function_shape env argv with h | h | ⟨acts, st, h⟩ <;> rw [h]
  · refine ⟨Or.inl rfl, ?_, ?_⟩
    · simp [hne1]
    · intro _
      rfl
  · refine ⟨Or.inr (Or.inl rfl), ?_, ?_⟩
    · simp [earlyDone]
    · intro hx
      exact absurd hx (by simp [earlyDone])
  · have hne2s : errMarker ≠ okMarker := Ne.symm hne2
    cases st
    · refine ⟨Or.inr (Or.inr (Or.inr (by simp [finishResult]))), ?_, ?_⟩
      · simp [finishResult, hne2s]
      · intro _
        rfl
    · refine ⟨Or.inr (Or.inr (Or.inl (by simp [finishResult]))), ?_, ?_⟩
      · simp [finishResult]
      · intro hx
        simp [finishResult] at hx
        exact absurd hx hne2

/-- Witness for C2 (amended): the policy instantiated at a successful
pause command. -/
theorem result_marker_policy_witness :
    ((stream_function envAllOk ["u", "pause"]).output = some usageMarker ∨
     (stream_function envAllOk ["u", "pause"]).output = none ∨
     (stream_function envAllOk ["u", "pause"]).output = some okMarker ∨
     (stream_function envAllOk ["u", "pause"]).output = some errMarker) ∧
    ((stream_function envAllOk ["u", "pause"]).output = some okMarker ↔
      (stream_function envAllOk ["u", "pause"]).status = true) ∧
    ((stream_function envAllOk ["u", "pause"]).output = some errMarker →
      (stream_function envAllOk ["u", "pause"]).status = false) :=
  result_marker_policy envAllOk ["u", "pause"]

/-- C8: a stop command whose trailing final-text argument fails UTF-8
validation is rejected before any state mutation: no cleanup is invoked,
no text is forwarded (the dispatcher issues no collaborator call at all),
and the invocation does not report success.  This holds both when the
session is found (the `goto done` rejection at lines 221-226) and when it
is not. -/
theorem stop_invalid_utf8_rejected (env : Env) (u text : String)
    (rest : List String) (h : env.utf8Valid text = false) :
    (stream_function env (u :: "stop" :: text :: rest)).actions = [] ∧
    (stream_function env (u :: "stop" :: text :: rest)).status = false := by
  cases hs : env.sessionFound
  · have hno : ¬ ((u :: "stop" :: text :: rest).length < 2 ∨
        ((u :: "stop" :: text :: rest).getD 1 "" == "start") = true ∧
          (u :: "stop" :: text :: rest).length < 4) := by
      simp [List.getD_cons_succ, List.getD_cons_zero]
    rw [stream_function_no_session env hs _ hno]
    exact ⟨rfl, rfl⟩
  · rw [stream_function_stop env hs u (text :: rest)]
    have hcond : 2 < (u :: "stop" :: text :: rest).length ∧
        env.utf8Valid ((u :: "stop" :: text :: rest).getD 2 "") = false := by
      refine ⟨by simp, ?_⟩
      simpa [List.getD_cons_succ, List.getD_cons_zero] using h
    rw [if_pos hcond]
    exact ⟨rfl, rfl⟩

/-- Witness for C8: a concrete rejecting validator and text. -/
theorem stop_invalid_utf8_rejected_witness :
    (stream_function envRejectUtf8 ["u", "stop", "bad"]).actions = [] ∧
    (stream_function envRejectUtf8 ["u", "stop", "bad"]).status = false :=
  stop_invalid_utf8_rejected envRejectUtf8 "u" "bad" [] rfl

/-- C9: when the sixth token of a start command is not one of the
case-insensitive encoding aliases, the resolved format stays linear-16 and
that token itself becomes the metadata (no argument shifting); when it is
a recognized alias, the metadata is taken from the seventh token when
present (and is `none` otherwise). -/
theorem encoding_token_fallback (argv : List String) (h5 : 5 < argv.length) :
    (isEncodingAlias (argv.getD 5 "") = false →
      parse_format_metadata argv = (AUDIO_FORMAT_L16, some (argv.getD 5 ""))) ∧
    (isEncodingAlias (argv.getD 5 "") = true →
      (parse_format_metadata argv).2 = argv.get? 6) := by
  constructor
  · intro h
    simp only [isEncodingAlias, Bool.or_eq_false_iff] at h
    obtain ⟨⟨⟨⟨⟨⟨⟨h1, h2⟩, h3⟩, h4⟩, h5a⟩, h6⟩, h7⟩, h8⟩ := h
    have n1 : ¬ (caseEq (argv.getD 5 "") "pcmu" = true ∨
        caseEq (argv.getD 5 "") "ulaw" = true ∨
        caseEq (argv.getD 5 "") "mulaw" = true) := by
      rintro (hx | hx | hx) <;> simp_all
    have n2 : ¬ (caseEq (argv.getD 5 "") "pcma" = true ∨
        caseEq (argv.getD 5 "") "alaw" = true) := by
      rintro (hx | hx) <;> simp_all
    have n3 : ¬ (caseEq (argv.getD 5 "") "l16" = true ∨
        caseEq (argv.getD 5 "") "linear" = true ∨
        caseEq (argv.getD 5 "") "pcm" = true) := by
      rintro (hx | hx | hx) <;> simp_all
    unfold parse_format_metadata
    rw [if_pos h5, if_neg n1, if_neg n2, if_neg n3]
  · intro h
    unfold parse_format_metadata
    rw [if_pos h5]
    split_ifs with b1 b2 b3
    · rfl
    · rfl
    · rfl
    · exfalso
      simp only [isEncodingAlias, Bool.or_eq_true] at h
      push_neg at b1 b2 b3
      rcases h with ((((((hx | hx) | hx) | hx) | hx) | hx) | hx) | hx <;>
        simp_all

/-- Witness for C9: the unrecognized token `legacy-meta` resolves to
linear-16 with itself as metadata. -/
theorem encoding_token_fallback_witness :
    (isEncodingAlias ((["u", "start", "w", "mono", "8000",
          "legacy-meta"] : List String).getD 5 "") = false →
      parse_format_metadata ["u", "start", "w", "mono", "8000", "legacy-meta"]
        = (AUDIO_FORMAT_L16,
           some ((["u", "start", "w", "mono", "8000",
             "legacy-meta"] : List String).getD 5 ""))) ∧
    (isEncodingAlias ((["u", "start", "w", "mono", "8000",
          "legacy-meta"] : List String).getD 5 "") = true →
      (parse_format_metadata
          ["u", "start", "w", "mono", "8000", "legacy-meta"]).2
        = (["u", "start", "w", "mono", "8000",
            "legacy-meta"] : List String).get? 6) :=
  encoding_token_fallback ["u", "start", "w", "mono", "8000", "legacy-meta"]
    (by simp)

end ModAudioStream
